import Mathlib

/-!
Verification development for the anonymous-chat matchmaking / dialog / rating core
(repository `ogSulem/nameless`).  The definitions below are a shallow embedding of
the Python sources:

* `src/app/redis/lua.py`          — the atomic reservation script (`MATCH_RESERVE_LUA`)
* `src/app/services/matchmaking.py` — `MatchmakingService` (`try_match`, `enqueue`, …)
* `src/app/services/rating.py`    — `RatingService` (`decide_seasonal_validity`,
  `on_rating_saved`)
* `src/app/services/dialog.py`    — `DialogService.finish_dialog`
* `src/app/handlers/dialog.py`    — `_finish_and_request_rating` (action assignment)
* `src/app/handlers/rating.py`    — `rating_text_input` (duplicate handling, operator
  alerts) and `_continue_after_rating_tg`
* `src/app/database/models.py`    — table shapes and uniqueness constraints

Machine floats in the sources only ever hold exact small values in the properties we
check; they are modelled with `Rat` (exact arithmetic).  Timestamps are modelled as
`Int` (seconds).  The fast store (`Redis`) is modelled as a record of total functions
from keys to values; the relational store as lists of rows.
-/

namespace Nameless

/-- Telegram user ids (`telegram_id` column / redis key fragments). -/
abbrev Tg := Nat

/-! ### Fast shared state store (redis)

Queues are redis lists: `LPUSH` adds at the head of our `List`, `RPOP` removes the
last element.  `lock t` models presence of key `lock:match:{t}`;
`activePtr t` models key `active_dialog:{t}` (the cached dialog id);
`lastPartner t` models key `last_partner:{t}`. -/

structure RedisState where
  queue : String → List Tg
  lock : Tg → Bool
  activePtr : Tg → Option Nat
  lastPartner : Tg → Option Tg

/-- `LPUSH q x`: push onto the head of the list. -/
def RedisState.lpush (s : RedisState) (q : String) (x : Tg) : RedisState :=
  { s with queue := fun n => if n = q then x :: s.queue n else s.queue n }

/-- `RPOP q` applied to a plain list: returns the tail element, if any. -/
def rpopList (l : List Tg) : Option Tg × List Tg :=
  match l.getLast? with
  | none => (none, l)
  | some c => (some c, l.dropLast)

/-- `RPOP q` on the store. -/
def RedisState.rpop (s : RedisState) (q : String) : Option Tg × RedisState :=
  let (c, rest) := rpopList (s.queue q)
  (c, { s with queue := fun n => if n = q then rest else s.queue n })

/-- `LREM q 0 x`: remove every occurrence of `x` from the list. -/
def RedisState.lrem (s : RedisState) (q : String) (x : Tg) : RedisState :=
  { s with queue := fun n => if n = q then (s.queue n).filter (fun y => y ≠ x) else s.queue n }

/-- `SET lock:match:{t} "1" NX PX ttl` as a pure state change (the boolean success is
read off the prior state by the caller). -/
def RedisState.setLock (s : RedisState) (t : Tg) : RedisState :=
  { s with lock := fun u => if u = t then true else s.lock u }

/-- `DEL lock:match:{t}`. -/
def RedisState.delLock (s : RedisState) (t : Tg) : RedisState :=
  { s with lock := fun u => if u = t then false else s.lock u }

/-! ### Key names (`src/app/redis/keys.py`) -/

def queue_city (city : String) : String := "queue:city:" ++ city.toLower

def queue_global : String := "queue:global"

def queue_premium_city (city : String) : String := "queue:premium:city:" ++ city.toLower

def queue_premium_global : String := "queue:premium:global"

/-! ### The atomic reservation script (`MATCH_RESERVE_LUA`, `src/app/redis/lua.py`)

The script receives the searcher id and the ordered queue names.  If the searcher
already has an `active_dialog:` pointer it answers `ACTIVE`.  Otherwise it `RPOP`s one
candidate from each queue in turn: a candidate equal to the searcher, or with an
`active_dialog:` pointer, or whose `lock:match:` could not be set `NX`, is `LPUSH`ed
back onto the same queue and the next queue is tried; the first candidate passing all
three checks is locked and answered as `OK` together with its source queue. -/

inductive ReserveResult where
  | reserveActive
  | reserveNone
  | reserveOk (candidate : Tg) (sourceQueue : String)
deriving Repr, DecidableEq

/-- The per-queue loop of the script (`for i = 3, #ARGV do … end`). -/
def matchReserveGo (me : Tg) : List String → RedisState → ReserveResult × RedisState
  | [], s => (.reserveNone, s)
  | q :: rest, s =>
    match (s.queue q).getLast? with
    | none => matchReserveGo me rest s
    | some c =>
      let s1 : RedisState :=
        { s with queue := fun n => if n = q then (s.queue q).dropLast else s.queue n }
      if c = me then
        matchReserveGo me rest (s1.lpush q c)
      else if (s1.activePtr c).isSome then
        matchReserveGo me rest (s1.lpush q c)
      else if s1.lock c then
        matchReserveGo me rest (s1.lpush q c)
      else
        (.reserveOk c q, s1.setLock c)

/-- The whole script, including the initial searcher `active_dialog:` check. -/
def match_reserve (me : Tg) (queues : List String) (s : RedisState) :
    ReserveResult × RedisState :=
  if (s.activePtr me).isSome then (.reserveActive, s) else matchReserveGo me queues s

/-! ### Durable relational store (`src/app/database/models.py`)

Only the columns the verified operations read are carried. -/

/-- A `users` row (the columns touched by matchmaking). -/
structure DbUser where
  id : Nat
  telegram_id : Tg
  city : Option String
  is_banned : Bool
  season_rating_chat : Rat
deriving Repr, DecidableEq

inductive DialogStatus where
  | active
  | finished
deriving Repr, DecidableEq

/-- A `dialogs` row. -/
structure DialogRow where
  id : Nat
  user1_id : Nat
  user2_id : Nat
  status : DialogStatus
  has_photos : Bool
  created_at : Int
  finished_at : Option Int
deriving Repr, DecidableEq

/-- An `active_dialogs` row (primary key `user_id`). -/
structure ActiveDialogRow where
  user_id : Nat
  dialog_id : Nat
deriving Repr, DecidableEq

inductive RatingType where
  | chat
  | appearance
deriving Repr, DecidableEq

/-- A `ratings` row. -/
structure RatingRow where
  id : Nat
  dialog_id : Nat
  from_user_id : Nat
  to_user_id : Nat
  rating_type : RatingType
  value : Nat
  is_seasonal_valid : Bool
  created_at : Int
deriving Repr, DecidableEq

/-- The durable store as visible to matchmaking. -/
structure DbState where
  users : List DbUser
  dialogs : List DialogRow
  active_dialogs : List ActiveDialogRow
deriving Repr, DecidableEq

/-- `session.get(ActiveDialog, user_id)` — primary-key lookup. -/
def DbState.getActiveDialog (db : DbState) (userId : Nat) : Option ActiveDialogRow :=
  db.active_dialogs.find? (fun r => r.user_id == userId)

/-- `select(...).where(User.telegram_id == tg)` — lookup of a user row by telegram id. -/
def DbState.userByTg (db : DbState) (tg : Tg) : Option DbUser :=
  db.users.find? (fun u => u.telegram_id == tg)

/-! ### `MatchResult` construction (`src/app/services/matchmaking.py` lines 19–22)

`MatchResult` is declared `@dataclass(frozen=True, slots=True)` with exactly the two
fields `dialog_id` and `partner_user_id`.  Python's generated `__init__` therefore
raises `TypeError` on any other keyword argument; with `slots=True` no extra attribute
can exist either.  Keyword-argument checking is embedded explicitly so the call sites
can be translated verbatim. -/

inductive PyError where
  | typeError (msg : String)
  | integrityError (msg : String)
deriving Repr, DecidableEq

structure MatchResult where
  dialog_id : Nat
  partner_user_id : Tg
deriving Repr, DecidableEq

def matchResultFieldNames : List String := ["dialog_id", "partner_user_id"]

/-- `MatchResult(**kwargs)`: rejects unknown keyword arguments exactly as the
dataclass-generated `__init__` does, then fills the two declared fields. -/
def mkMatchResult (kwargs : List (String × Nat)) : Except PyError MatchResult :=
  match kwargs.find? (fun kv => !(matchResultFieldNames.contains kv.1)) with
  | some kv => .error (.typeError ("unexpected keyword argument " ++ kv.1))
  | none =>
      .ok { dialog_id := ((kwargs.find? (fun kv => kv.1 == "dialog_id")).map (·.2)).getD 0
            partner_user_id :=
              ((kwargs.find? (fun kv => kv.1 == "partner_user_id")).map (·.2)).getD 0 }

/-! ### `MatchmakingService` (`src/app/services/matchmaking.py`) -/

/-- Python truthiness of the optional `city` string: `None` and `""` are falsy. -/
def pyTruthyCity : Option String → Bool
  | none => false
  | some c => c ≠ ""

/-- `_queues_for_user(city, premium)`: ordered queue groups `(city_queues, global_queues)`
(`if city:` is a truthiness test). -/
def queues_for_user (city : Option String) (premium : Bool) :
    List String × List String :=
  if premium then
    if pyTruthyCity city then
      ([queue_premium_city (city.getD ""), queue_city (city.getD "")],
       [queue_premium_global, queue_global])
    else ([], [queue_premium_global, queue_global])
  else
    if pyTruthyCity city then ([queue_city (city.getD "")], [queue_global])
    else ([], [queue_global])

/-- `_select_queue(city, premium)` (`if city` is a truthiness test). -/
def select_queue (city : Option String) (premium : Bool) : String :=
  if premium then
    if pyTruthyCity city then queue_premium_city (city.getD "") else queue_premium_global
  else
    if pyTruthyCity city then queue_city (city.getD "") else queue_global

/-- `MatchmakingService.enqueue`: `LREM` then `LPUSH` into the selected queue, and, when
a city is set, additionally into the corresponding global queue. -/
def enqueue (s : RedisState) (tg : Tg) (city : Option String) (isPremiumQueue : Bool) :
    RedisState :=
  let q := select_queue city isPremiumQueue
  let s1 := (s.lrem q tg).lpush q tg
  match city with
  | some _ =>
      let qg := select_queue none isPremiumQueue
      (s1.lrem qg tg).lpush qg tg
  | none => s1

/-- `MatchmakingService.dequeue_from_all`: `LREM` the user from the global, premium
global and (when set) both city queues. -/
def dequeue_from_all (s : RedisState) (tg : Tg) (city : Option String) : RedisState :=
  let s1 := (s.lrem queue_global tg).lrem queue_premium_global tg
  if pyTruthyCity city then
    (s1.lrem (queue_city (city.getD "")) tg).lrem (queue_premium_city (city.getD "")) tg
  else s1

/-- Python truthiness of `best_candidate_id` (an `Optional[int]`): `None` and `0` are
falsy. -/
def pyTruthyOptNat : Option Nat → Bool
  | none => false
  | some n => n ≠ 0

/-- The immutable inputs of one `try_match` call. -/
structure MatchCtx where
  userId : Nat
  userTg : Tg
  lastPartnerTg : Option Tg
  premium : Bool
deriving Repr

/-- The mutable state of `_attempt_match`: the redis connection, the nonlocal
`partner_lock_key` (recorded as the candidate tg id the key names), and the premium
`best_candidate_*` locals. -/
structure LoopState where
  redis : RedisState
  partnerLockKey : Option Tg
  bestId : Option Nat
  bestTg : Option Tg
  bestRating : Rat

/-- One step of the `for _ in range(max_attempts)` loop. -/
inductive LoopStep where
  | cont (st : LoopState)
  | brk (st : LoopState)
  | ret (st : LoopState) (r : Option MatchResult)
  | err (st : LoopState) (e : PyError)

/-- Lines 152–210: handling of one candidate returned `OK` by the reservation script
(last-partner check, durable lookup, ban check, durable and cached active-dialog
checks, premium best-of-N bookkeeping, non-premium immediate acceptance). -/
def processCandidate (ctx : MatchCtx) (db : DbState) (st : LoopState)
    (cand : Tg) (srcQueue : String) : LoopStep :=
  let st := { st with partnerLockKey := some cand }
  if ctx.lastPartnerTg = some cand then
    -- avoid immediate rematch with the same partner: LPUSH back, DEL the lock
    .cont { st with redis := ((st.redis.lpush srcQueue cand).delLock cand),
                    partnerLockKey := none }
  else
    match db.userByTg cand with
    | none =>
        -- unknown candidate: DEL the lock only (not pushed back)
        .cont { st with redis := st.redis.delLock cand, partnerLockKey := none }
    | some u =>
      if u.is_banned then
        -- banned candidate: DEL the lock only (not pushed back)
        .cont { st with redis := st.redis.delLock cand, partnerLockKey := none }
      else if (db.getActiveDialog u.id).isSome then
        .cont { st with redis := ((st.redis.lpush srcQueue cand).delLock cand),
                        partnerLockKey := none }
      else if (st.redis.activePtr cand).isSome then
        .cont { st with redis := ((st.redis.lpush srcQueue cand).delLock cand),
                        partnerLockKey := none }
      else if ctx.premium then
        if u.season_rating_chat > st.bestRating then
          -- displace the previous best (when its id is truthy) onto the CURRENT source
          -- queue and free its lock; keep the new candidate's lock
          let redis1 :=
            if pyTruthyOptNat st.bestId then
              ((st.redis.lpush srcQueue (st.bestTg.getD 0)).delLock (st.bestTg.getD 0))
            else st.redis
          .cont { redis := redis1, partnerLockKey := some cand,
                  bestId := some u.id, bestTg := some cand,
                  bestRating := u.season_rating_chat }
        else
          .cont { st with redis := ((st.redis.lpush srcQueue cand).delLock cand),
                          partnerLockKey := none }
      else
        -- non-premium: `return MatchResult(dialog_id=0, partner_user_id=cand_tg,
        -- _temp_partner_id=cand_id)`
        match mkMatchResult
            [("dialog_id", 0), ("partner_user_id", cand), ("_temp_partner_id", u.id)] with
        | .ok r => .ret st (some r)
        | .error e => .err st e

/-- One full iteration of the loop body (lines 140–210). -/
def matchIteration (ctx : MatchCtx) (db : DbState) (fromQueues : List String)
    (st : LoopState) : LoopStep :=
  if (st.redis.activePtr ctx.userTg).isSome then
    .ret st none
  else
    match match_reserve ctx.userTg fromQueues st.redis with
    | (.reserveActive, s1) => .brk { st with redis := s1 }
    | (.reserveNone, s1) => .brk { st with redis := s1 }
    | (.reserveOk cand q, s1) => processCandidate ctx db { st with redis := s1 } cand q

/-- Lines 212–214: the code after the loop — `if best_candidate_id: return
MatchResult(..., _temp_partner_id=...)` else `return None`. -/
def afterLoop (st : LoopState) : (Except PyError (Option MatchResult)) × LoopState :=
  if pyTruthyOptNat st.bestId then
    match mkMatchResult
        [("dialog_id", 0), ("partner_user_id", st.bestTg.getD 0),
         ("_temp_partner_id", (st.bestId.getD 0))] with
    | .ok r => (.ok (some r), st)
    | .error e => (.error e, st)
  else
    (.ok none, st)

/-- `_attempt_match(from_queues)` with explicit fuel for the bounded attempt loop. -/
def attempt_match (ctx : MatchCtx) (db : DbState) (fromQueues : List String) :
    Nat → LoopState → (Except PyError (Option MatchResult)) × LoopState
  | 0, st => afterLoop st
  | fuel + 1, st =>
    match matchIteration ctx db fromQueues st with
    | .cont st' => attempt_match ctx db fromQueues fuel st'
    | .brk st' => afterLoop st'
    | .ret st' r => (.ok r, st')
    | .err st' e => (.error e, st')

/-- The `try` body of `try_match` (lines 108–281): active-dialog abort, stale-queue
cleanup, the city then global `_attempt_match` phases, and the terminal
enqueue-or-create step.  Returns the result, the redis state, the nonlocal
`partner_lock_key` still held, and the durable store.

The match-commit branch deserves a note: `partner_info` can only be produced by
`MatchResult(..., _temp_partner_id=...)`, which always raises, so that branch is dead;
were it reached, `getattr(partner_info, "_temp_partner_id", None)` on the slots
dataclass yields `None` and the `Dialog(user2_id=None)` insert violates the NOT NULL
constraint at flush, outside the `except IntegrityError` that only guards the commit. -/
def tryMatchBody (ctx : MatchCtx) (db : DbState) (s1 : RedisState) (city : Option String)
    (fuel : Nat) :
    (Except PyError (Option MatchResult)) × RedisState × Option Tg × DbState :=
  if (db.getActiveDialog ctx.userId).isSome then
    (.ok none, s1, none, db)
  else
    let s2 := dequeue_from_all s1 ctx.userTg city
    let qs := queues_for_user city ctx.premium
    let st0 : LoopState :=
      { redis := s2, partnerLockKey := none, bestId := none, bestTg := none,
        bestRating := -1 }
    let p1 :=
      if pyTruthyCity city ∧ qs.1 ≠ [] then attempt_match ctx db qs.1 fuel st0
      else (.ok none, st0)
    match p1 with
    | (.error e, st1) => (.error e, st1.redis, st1.partnerLockKey, db)
    | (.ok pInfo1, st1) =>
      let p2 :=
        match pInfo1 with
        | some r => ((.ok (some r) : Except PyError (Option MatchResult)), st1)
        | none =>
          if qs.2 ≠ [] then
            attempt_match ctx db qs.2 fuel
              { st1 with bestId := none, bestTg := none, bestRating := -1 }
          else (.ok none, st1)
      match p2 with
      | (.error e, st2) => (.error e, st2.redis, st2.partnerLockKey, db)
      | (.ok none, st2) =>
          (.ok none, enqueue st2.redis ctx.userTg city ctx.premium, st2.partnerLockKey, db)
      | (.ok (some _), st2) =>
          (.error (.integrityError "null value in column user2_id violates not-null"),
           st2.redis, st2.partnerLockKey, db)

/-- The observable outcome of one `try_match` call. -/
structure TryMatchOut where
  result : Except PyError (Option MatchResult)
  redis : RedisState
  db : DbState

/-- `MatchmakingService.try_match` (lines 84–288): reads the last-partner cooldown key,
takes the searcher's exclusive lock (`return None` when already held), runs the body,
and in `finally` deletes the searcher's lock key and the currently tracked
`partner_lock_key`. -/
def try_match (db : DbState) (s0 : RedisState) (user : DbUser) (premium : Bool)
    (fuel : Nat) : TryMatchOut :=
  let lastPartnerTg := s0.lastPartner user.telegram_id
  if s0.lock user.telegram_id then
    { result := .ok none, redis := s0, db := db }
  else
    let ctx : MatchCtx :=
      { userId := user.id, userTg := user.telegram_id,
        lastPartnerTg := lastPartnerTg, premium := premium }
    let body := tryMatchBody ctx db (s0.setLock user.telegram_id) user.city fuel
    let sF := body.2.1.delLock user.telegram_id
    let sF :=
      match body.2.2.1 with
      | some c => sF.delLock c
      | none => sF
    { result := body.1, redis := sF, db := body.2.2.2 }

/-! ### `RatingService` (`src/app/services/rating.py`) -/

/-- The reputation snapshot columns of a `users` row mutated by `on_rating_saved`. -/
structure RepUser where
  id : Nat
  season_rating_chat : Rat
  season_rating_appearance : Rat
  last_20_avg_chat : Rat
  last_20_avg_appearance : Rat
  calibration_counter : Nat
  is_under_review : Bool
deriving Repr, DecidableEq

/-- SQL `AVG` over integer values: `NULL` (here `none`) on the empty set, else the
exact mean. -/
def sqlAvg (vals : List Nat) : Option Rat :=
  if vals.isEmpty then none
  else some ((vals.map (fun (v : Nat) => (v : Rat))).sum / (vals.length : Rat))

/-- `ratings` rows received by `u` of kind `k`
(`Rating.to_user_id == u`, `Rating.rating_type == k`). -/
def ratingsTo (rs : List RatingRow) (u : Nat) (k : RatingType) : List RatingRow :=
  rs.filter (fun r => r.to_user_id == u && r.rating_type == k)

/-- Insert into a list sorted by `created_at` descending. -/
def insertDesc (r : RatingRow) : List RatingRow → List RatingRow
  | [] => [r]
  | x :: xs => if x.created_at ≤ r.created_at then r :: x :: xs else x :: insertDesc r xs

/-- `ORDER BY created_at DESC` (insertion sort; most recent first). -/
def sortByCreatedDesc : List RatingRow → List RatingRow
  | [] => []
  | x :: xs => insertDesc x (sortByCreatedDesc xs)

/-- The result of `on_rating_saved`: the mutated `users` row and the returned tuple
`(True, avg_chat, avg_app, prev_chat)`. -/
structure RecalcOut where
  user : RepUser
  recalculated : Bool
  avg_chat : Rat
  avg_app : Rat
  prev_chat : Rat
deriving Repr, DecidableEq

/-- `RatingService.on_rating_saved` (lines 77–143): recomputes the calibration counter
(count of distinct dialogs with a chat rating received), the per-kind season averages
(`AVG` over all ratings of the kind, `0.0` when none), the per-kind rolling-20
averages (`AVG` over the 20 most recent by `created_at`), and flags the user
under-review when the chat season average dropped by at least 3 from a nonzero prior
value. -/
def on_rating_saved (rs : List RatingRow) (user : RepUser) : RecalcOut :=
  let chatR := ratingsTo rs user.id .chat
  let appR := ratingsTo rs user.id .appearance
  let total_received_dialogs := (chatR.map (·.dialog_id)).dedup.length
  let prev_chat := user.season_rating_chat
  let avg_chat := (sqlAvg (chatR.map (·.value))).getD 0
  let avg_app := (sqlAvg (appR.map (·.value))).getD 0
  let last20_chat := (sqlAvg (((sortByCreatedDesc chatR).take 20).map (·.value))).getD 0
  let last20_app := (sqlAvg (((sortByCreatedDesc appR).take 20).map (·.value))).getD 0
  let user' : RepUser :=
    { user with
      calibration_counter := total_received_dialogs
      last_20_avg_chat := last20_chat
      last_20_avg_appearance := last20_app
      season_rating_chat := avg_chat
      season_rating_appearance := avg_app
      is_under_review :=
        if prev_chat ≠ 0 ∧ 3 ≤ prev_chat - avg_chat then true else user.is_under_review }
  { user := user', recalculated := true, avg_chat := avg_chat, avg_app := avg_app,
    prev_chat := prev_chat }

/-- `AntiAbuseDecision` (`src/app/services/rating.py` lines 15–18). -/
structure AntiAbuseDecision where
  is_seasonal_valid : Bool
  reason : Option String
deriving Repr, DecidableEq

/-- The `meets_q` query: dialogs in the window whose two user columns both lie in
`{a, b}`. -/
def meetsCount (dialogs : List DialogRow) (since : Int) (a b : Nat) : Nat :=
  (dialogs.filter (fun d =>
    decide (since ≤ d.created_at) &&
    (d.user1_id == a || d.user1_id == b) && (d.user2_id == a || d.user2_id == b))).length

/-- The `mutual_high_q` query: chat ratings in the window whose two user columns both
lie in `{a, b}`. -/
def mutualChat (rs : List RatingRow) (since : Int) (a b : Nat) : List RatingRow :=
  rs.filter (fun r =>
    decide (since ≤ r.created_at) && r.rating_type == RatingType.chat &&
    (r.from_user_id == a || r.from_user_id == b) &&
    (r.to_user_id == a || r.to_user_id == b))

/-- `RatingService.decide_seasonal_validity` (lines 22–75): over the trailing 7-day
window, more than 3 pair dialogs ⇒ invalid (`pair_met_too_often`); else at least 10
mutual chat ratings of which a fraction of at least `0.8` are ≥ 9 ⇒ invalid
(`mutual_high_ratio`); else valid. -/
def decide_seasonal_validity (now : Int) (dialogs : List DialogRow)
    (rs : List RatingRow) (from_user_id to_user_id : Nat) : AntiAbuseDecision :=
  let since := now - 7 * 86400
  let meets := meetsCount dialogs since from_user_id to_user_id
  if 3 < meets then { is_seasonal_valid := false, reason := some "pair_met_too_often" }
  else
    let mutual_total := (mutualChat rs since from_user_id to_user_id).length
    if 10 ≤ mutual_total then
      let mutual_high :=
        ((mutualChat rs since from_user_id to_user_id).filter (fun r => 9 ≤ r.value)).length
      if (4 : Rat) / 5 ≤ (mutual_high : Rat) / (mutual_total : Rat) then
        { is_seasonal_valid := false, reason := some "mutual_high_ratio" }
      else { is_seasonal_valid := true, reason := none }
    else { is_seasonal_valid := true, reason := none }

/-! ### Rating persistence and duplicate handling
(`src/app/database/models.py` lines 160–165, `src/app/handlers/rating.py` lines 348–373) -/

/-- The column tuple of the unique index `ux_ratings_unique`. -/
def ratingKey (r : RatingRow) : Nat × Nat × Nat × RatingType :=
  (r.dialog_id, r.from_user_id, r.to_user_id, r.rating_type)

/-- Whether inserting `r` violates `ux_ratings_unique` against the stored rows. -/
def violatesUnique (rs : List RatingRow) (r : RatingRow) : Bool :=
  rs.any (fun r0 => ratingKey r0 == ratingKey r)

inductive SubmitOutcome where
  | saved
  | rejected (userMessage : String)
deriving Repr, DecidableEq

/-- The message surfaced to the rater on a duplicate (handler line 369),
"the rating was already given". -/
def alreadyRatedMessage : String := "Оценка уже была поставлена"

/-- The persistence step of `rating_text_input`: `session.add(r); commit` — a
uniqueness violation rolls back, surfaces `alreadyRatedMessage` and returns before
`on_rating_saved`; otherwise the row is inserted and the ratee's aggregates are
recomputed. -/
def submit_rating (rs : List RatingRow) (ratee : RepUser) (r : RatingRow) :
    List RatingRow × RepUser × SubmitOutcome :=
  if violatesUnique rs r then (rs, ratee, .rejected alreadyRatedMessage)
  else
    let rs' := rs ++ [r]
    (rs', (on_rating_saved rs' ratee).user, .saved)

/-! ### Operator alert on a sharp average drop (`src/app/handlers/rating.py` 389–412) -/

structure OperatorAlert where
  to_tg : Tg
  prev_avg_chat : Rat
  new_avg_chat : Rat
  incoming_value : Nat
  dialog_id : Nat
  rater_tg : Tg
deriving Repr, DecidableEq

/-- The alert block of `rating_text_input`: when
`recalculated and step == "chat" and prev_chat and abs(prev_chat - new_chat) >= 3`,
one message per configured operator id, carrying the ratee, both averages, the
triggering value, the dialog and the rater. -/
def rating_drop_alerts (admins : List Nat) (recalculated : Bool) (step : String)
    (prev_chat new_chat : Rat) (to_tg : Tg) (value dialogId : Nat) (rater_tg : Tg) :
    List (Nat × OperatorAlert) :=
  if recalculated ∧ step = "chat" ∧ prev_chat ≠ 0 ∧ 3 ≤ |prev_chat - new_chat| then
    admins.map (fun a =>
      (a, { to_tg := to_tg, prev_avg_chat := prev_chat, new_avg_chat := new_chat,
            incoming_value := value, dialog_id := dialogId, rater_tg := rater_tg }))
  else []

/-! ### `DialogService.finish_dialog` (`src/app/services/dialog.py` lines 129–151) -/

/-- `finish_dialog`: primary-key lookup; an already non-active dialog is returned
unchanged; otherwise the status and finish timestamp are set and every
`active_dialogs` row of this dialog is deleted in one statement. -/
def finish_dialog (db : DbState) (dialogId : Nat) (now : Int) :
    Option DialogRow × DbState :=
  match db.dialogs.find? (fun d => d.id == dialogId) with
  | none => (none, db)
  | some d =>
    if d.status ≠ DialogStatus.active then (some d, db)
    else
      let upd : DialogRow → DialogRow := fun x =>
        if x.id == dialogId then { x with status := .finished, finished_at := some now }
        else x
      (some { d with status := .finished, finished_at := some now },
       { db with
         dialogs := db.dialogs.map upd
         active_dialogs := db.active_dialogs.filter (fun a => a.dialog_id ≠ dialogId) })

/-! ### Resume-action assignment and the post-rating continuation
(`src/app/handlers/dialog.py` lines 199–218, `src/app/handlers/rating.py` 150–231) -/

/-- Lines 208–218 of `_finish_and_request_rating`: the pending-rating actions written
for the two participants, in the order they were read from the durable store. -/
def assign_actions (action : String) (actor tg1 tg2 : Tg) : String × String :=
  if action = "skip" then ("skip", "skip")
  else if actor = tg1 then ("end", "skip")
  else ("skip", "end")

/-- The action recorded for participant `u` when the read order was `(tg1, tg2)`. -/
def action_for (u tg1 tg2 : Tg) (action : String) (actor : Tg) : String :=
  if u = tg1 then (assign_actions action actor tg1 tg2).1
  else (assign_actions action actor tg1 tg2).2

/-- The per-user pending-rating bundle (ephemeral keys `pending_rating*:{tg}`). -/
structure PendingBundle where
  dialog_id : Nat
  has_photos : Bool
  partner : Tg
  action : String
  step : String
deriving Repr, DecidableEq

inductive ResumeAction where
  | resumeSearch
  | showProfile
deriving Repr, DecidableEq

/-- `_continue_after_rating_tg`: read the recorded action (defaulting to `"end"` when
the bundle is gone), clear the whole bundle, then resume searching on `"skip"` and
show the profile otherwise. -/
def continue_after_rating (bundle : Option PendingBundle) :
    Option PendingBundle × ResumeAction :=
  let action := (bundle.map (·.action)).getD "end"
  (none, if action = "skip" then .resumeSearch else .showProfile)

/-! ### Spec-side definitions

These follow the specification's words, for comparison against the embedded code. -/

/-- Spec-side: the arithmetic mean of a list of integer ratings. -/
def specMean (vals : List Nat) : Rat :=
  ((vals.map (fun (v : Nat) => (v : Rat))).sum) / (vals.length : Rat)

/-- Spec-side: the number of dialogs the unordered pair `{a, b}` created in the
window (either orientation of the two user columns). -/
def specPairDialogCount (dialogs : List DialogRow) (since : Int) (a b : Nat) : Nat :=
  (dialogs.filter (fun d =>
    decide (since ≤ d.created_at) &&
    ((d.user1_id == a && d.user2_id == b) || (d.user1_id == b && d.user2_id == a)))).length

/-- Spec-side: the chat ratings the pair `{a, b}` exchanged of each other in the
window (either direction). -/
def specExchangedChat (rs : List RatingRow) (since : Int) (a b : Nat) : List RatingRow :=
  rs.filter (fun r =>
    decide (since ≤ r.created_at) && r.rating_type == RatingType.chat &&
    ((r.from_user_id == a && r.to_user_id == b) ||
     (r.from_user_id == b && r.to_user_id == a)))

/-! ### Decidability helper -/

instance {ε α : Type} [DecidableEq ε] [DecidableEq α] : DecidableEq (Except ε α) :=
  fun a b =>
    match a, b with
    | .ok x, .ok y => if h : x = y then .isTrue (by rw [h]) else .isFalse (by simp [h])
    | .error x, .error y =>
        if h : x = y then .isTrue (by rw [h]) else .isFalse (by simp [h])
    | .ok _, .error _ => .isFalse (by simp)
    | .error _, .ok _ => .isFalse (by simp)

/-! ### Concrete scenarios -/

/-- An empty fast store with one populated global queue. -/
def redisWithGlobalQueue (entries : List Tg) : RedisState :=
  { queue := fun n => if n = queue_global then entries else []
    lock := fun _ => false
    activePtr := fun _ => none
    lastPartner := fun _ => none }

/-- Searcher used by the concrete matchmaking scenarios. -/
def searcherS : DbUser :=
  { id := 1, telegram_id := 100, city := none, is_banned := false, season_rating_chat := 5 }

/-- Store for the C1 scenario: one clean waiting candidate (id 2, tg 200). -/
def dbOneCandidate : DbState :=
  { users := [searcherS,
      { id := 2, telegram_id := 200, city := none, is_banned := false,
        season_rating_chat := 5 }]
    dialogs := [], active_dialogs := [] }

/-- C1: the claim says `try_match` either returns a new match or enqueues and returns
none, and in particular returns normally when a valid candidate has been reserved.
Evaluating the embedded code on a searcher with one clean reserved candidate shows the
call instead raises `TypeError`: `MatchResult` is a frozen slots dataclass with only
`dialog_id` and `partner_user_id`, yet the accept path constructs it with the extra
keyword argument `_temp_partner_id`. -/
theorem try_match_raises_on_reserved_candidate :
    (try_match dbOneCandidate (redisWithGlobalQueue [200]) searcherS false 50).result
      = .error (.typeError "unexpected keyword argument _temp_partner_id") := by
  decide

/-- Store for the C6 counterexample: the only waiting candidate (id 2, tg 200) is
banned. -/
def dbBannedCandidate : DbState :=
  { users := [searcherS,
      { id := 2, telegram_id := 200, city := none, is_banned := true,
        season_rating_chat := 5 }]
    dialogs := [], active_dialogs := [] }

/-- C6 counterexample: the claim says every candidate failing durable validation has
its lock released AND is returned to its source queue.  For a banned candidate the
code releases the lock but never pushes the candidate back: after the call the global
queue holds only the re-enqueued searcher (tg 100) and the banned candidate (tg 200)
is gone from it. -/
theorem banned_candidate_not_requeued :
    (try_match dbBannedCandidate (redisWithGlobalQueue [200]) searcherS false 50).result
        = .ok none
      ∧ (try_match dbBannedCandidate (redisWithGlobalQueue [200]) searcherS false
          50).redis.lock 200 = false
      ∧ (try_match dbBannedCandidate (redisWithGlobalQueue [200]) searcherS false
          50).redis.queue queue_global = [100]
      ∧ 200 ∉ (try_match dbBannedCandidate (redisWithGlobalQueue [200]) searcherS false
          50).redis.queue queue_global := by
  refine ⟨by decide, by decide, by decide, by decide⟩

/-- Store for the C10 counterexample: a premium searcher and two clean candidates,
tg 200 (rating 5, popped first) and tg 300 (rating 3, popped second). -/
def dbTwoCandidates : DbState :=
  { users := [searcherS,
      { id := 2, telegram_id := 200, city := none, is_banned := false,
        season_rating_chat := 5 },
      { id := 3, telegram_id := 300, city := none, is_banned := false,
        season_rating_chat := 3 }]
    dialogs := [], active_dialogs := [] }

/-- C10 counterexample: the claim says `try_match` releases, on every exit path,
whatever candidate lock it still holds.  In the premium flow tg 200 becomes the
retained best (its lock held), the later candidate tg 300 is rejected for its lower
rating — which clears `partner_lock_key` — and the exit (here the `TypeError` raise of
the accept path) then releases only the searcher's lock: tg 200's reservation lock is
still set after the call and only its TTL can clear it. -/
theorem premium_best_lock_left_held :
    (try_match dbTwoCandidates (redisWithGlobalQueue [300, 200]) searcherS true
        50).result
      = .error (.typeError "unexpected keyword argument _temp_partner_id")
    ∧ (try_match dbTwoCandidates (redisWithGlobalQueue [300, 200]) searcherS true
        50).redis.lock 200 = true
    ∧ (try_match dbTwoCandidates (redisWithGlobalQueue [300, 200]) searcherS true
        50).redis.lock 100 = false := by
  refine ⟨by decide, by decide, by decide⟩

/-! ### Dialog lifecycle (C7) -/

/-- `find?` through a `map` whose function preserves the predicate's input. -/
theorem find?_map_general {α β : Type} (f : α → β) (p : β → Bool) :
    ∀ l : List α, (l.map f).find? p = (l.find? (fun a => p (f a))).map f := by
  intro l
  induction l with
  | nil => rfl
  | cons a as ih =>
    by_cases h : p (f a) = true
    · simp [List.find?, h]
    · simp only [List.map_cons, List.find?]
      rw [Bool.not_eq_true] at h
      simp [h, ih]

/-- C7: `finish_dialog` transitions a dialog from active to finished exactly once: the
first call sets the finish timestamp and status and deletes every `active_dialogs` row
of the dialog in one statement; a repeated call on the now-finished dialog returns the
dialog unchanged and leaves the store untouched. -/
theorem finish_dialog_transitions_once :
    ∀ (db : DbState) (dialogId : Nat) (now : Int) (d : DialogRow),
      db.dialogs.find? (fun x => x.id == dialogId) = some d →
      d.status = DialogStatus.active →
      (finish_dialog db dialogId now).1
          = some { d with status := .finished, finished_at := some now }
        ∧ (finish_dialog db dialogId now).2.active_dialogs
            = db.active_dialogs.filter (fun a => a.dialog_id ≠ dialogId)
        ∧ (∀ a ∈ (finish_dialog db dialogId now).2.active_dialogs, a.dialog_id ≠ dialogId)
        ∧ finish_dialog (finish_dialog db dialogId now).2 dialogId now
            = (some { d with status := .finished, finished_at := some now },
               (finish_dialog db dialogId now).2) := by
  intro db dialogId now d hfind hact
  have hid : (d.id == dialogId) = true := by
    have h := List.find?_some hfind
    simpa using h
  have h1 : finish_dialog db dialogId now
      = (some { d with status := .finished, finished_at := some now },
         { db with
           dialogs := db.dialogs.map (fun x =>
             if x.id == dialogId then { x with status := .finished, finished_at := some now }
             else x)
           active_dialogs := db.active_dialogs.filter (fun a => a.dialog_id ≠ dialogId) }) := by
    simp [finish_dialog, hfind, hact]
  refine ⟨by rw [h1], by rw [h1], ?_, ?_⟩
  · intro a ha
    rw [h1] at ha
    simp only [List.mem_filter, decide_eq_true_eq] at ha
    exact ha.2
  · have hfind2 : ((finish_dialog db dialogId now).2.dialogs).find? (fun x => x.id == dialogId)
        = some { d with status := .finished, finished_at := some now } := by
      rw [h1]
      rw [find?_map_general]
      have hp : (fun a : DialogRow =>
          ((if a.id == dialogId then
              { a with status := DialogStatus.finished, finished_at := some now }
            else a).id == dialogId))
          = fun a : DialogRow => a.id == dialogId := by
        funext a
        by_cases h : (a.id == dialogId) = true
        · simp [h]
        · rw [Bool.not_eq_true] at h
          simp [h]
      rw [hp, hfind]
      simp only [Option.map_some']
      rw [if_pos hid]
    rw [finish_dialog, hfind2]
    simp

/-- C7 witness: the theorem applied to a one-dialog store. -/
def c7db : DbState :=
  { users := []
    dialogs := [{ id := 7, user1_id := 1, user2_id := 2, status := .active,
                  has_photos := false, created_at := 0, finished_at := none }]
    active_dialogs := [{ user_id := 1, dialog_id := 7 }, { user_id := 2, dialog_id := 7 }] }

def c7row : DialogRow :=
  { id := 7, user1_id := 1, user2_id := 2, status := .active, has_photos := false,
    created_at := 0, finished_at := none }

theorem finish_dialog_transitions_once_witness :
    (finish_dialog c7db 7 11).1
        = some { c7row with status := .finished, finished_at := some 11 }
      ∧ (finish_dialog c7db 7 11).2.active_dialogs
          = c7db.active_dialogs.filter (fun a => a.dialog_id ≠ 7)
      ∧ (∀ a ∈ (finish_dialog c7db 7 11).2.active_dialogs, a.dialog_id ≠ 7)
      ∧ finish_dialog (finish_dialog c7db 7 11).2 7 11
          = (some { c7row with status := .finished, finished_at := some 11 },
             (finish_dialog c7db 7 11).2) :=
  finish_dialog_transitions_once c7db 7 11 c7row (by decide) (by decide)

/-! ### Resume-action assignment (C9) -/

/-- C9: when a dialog finishes with `skip`, both participants' recorded resume action
is `"skip"` (resume search); with `end`, the pressing participant gets `"end"` (show
profile) and the other `"skip"` — independently of the order in which the two
participants were read; completing the rating flow always clears the bundle and
performs the recorded action (`"skip"` ⇒ resume search, otherwise show profile). -/
theorem resume_action_assignment :
    ∀ (tg1 tg2 actor : Tg) (dlg : Nat) (hp : Bool) (p : Tg) (stp : String),
      tg1 ≠ tg2 → (actor = tg1 ∨ actor = tg2) →
      (action_for tg1 tg1 tg2 "skip" actor = "skip"
        ∧ action_for tg2 tg1 tg2 "skip" actor = "skip"
        ∧ ∀ u, continue_after_rating
            (some { dialog_id := dlg, has_photos := hp, partner := p,
                    action := action_for u tg1 tg2 "skip" actor, step := stp })
            = (none, .resumeSearch))
      ∧ (action_for actor tg1 tg2 "end" actor = "end"
        ∧ (∀ u, (u = tg1 ∨ u = tg2) → u ≠ actor →
            action_for u tg1 tg2 "end" actor = "skip")
        ∧ continue_after_rating
            (some { dialog_id := dlg, has_photos := hp, partner := p,
                    action := action_for actor tg1 tg2 "end" actor, step := stp })
            = (none, .showProfile)
        ∧ (∀ u, (u = tg1 ∨ u = tg2) → u ≠ actor →
            continue_after_rating
              (some { dialog_id := dlg, has_photos := hp, partner := p,
                      action := action_for u tg1 tg2 "end" actor, step := stp })
              = (none, .resumeSearch)))
      ∧ (∀ u act, (u = tg1 ∨ u = tg2) →
          action_for u tg1 tg2 act actor = action_for u tg2 tg1 act actor)
      ∧ (∀ b, (continue_after_rating b).1 = none) := by
  intro tg1 tg2 actor dlg hp p stp hne hmem
  have hskip : ∀ u, action_for u tg1 tg2 "skip" actor = "skip" := by
    intro u
    unfold action_for assign_actions
    simp
  have hend_actor : action_for actor tg1 tg2 "end" actor = "end" := by
    rcases hmem with rfl | rfl
    · simp [action_for, assign_actions]
    · simp [action_for, assign_actions, Ne.symm hne]
  have hend_other : ∀ u, (u = tg1 ∨ u = tg2) → u ≠ actor →
      action_for u tg1 tg2 "end" actor = "skip" := by
    rintro u (rfl | rfl) hu
    · simp [action_for, assign_actions, Ne.symm hu]
    · rcases hmem with rfl | rfl
      · simp [action_for, assign_actions, Ne.symm hne]
      · exact absurd rfl hu
  refine ⟨⟨hskip tg1, hskip tg2, ?_⟩, ⟨hend_actor, hend_other, ?_, ?_⟩, ?_, ?_⟩
  · intro u
    rw [show continue_after_rating
        (some { dialog_id := dlg, has_photos := hp, partner := p,
                action := action_for u tg1 tg2 "skip" actor, step := stp })
      = (none, if action_for u tg1 tg2 "skip" actor = "skip"
          then ResumeAction.resumeSearch else ResumeAction.showProfile) from rfl]
    rw [hskip u]
    simp
  · rw [show continue_after_rating
        (some { dialog_id := dlg, has_photos := hp, partner := p,
                action := action_for actor tg1 tg2 "end" actor, step := stp })
      = (none, if action_for actor tg1 tg2 "end" actor = "skip"
          then ResumeAction.resumeSearch else ResumeAction.showProfile) from rfl]
    rw [hend_actor]
    simp
  · intro u humem hu
    rw [show continue_after_rating
        (some { dialog_id := dlg, has_photos := hp, partner := p,
                action := action_for u tg1 tg2 "end" actor, step := stp })
      = (none, if action_for u tg1 tg2 "end" actor = "skip"
          then ResumeAction.resumeSearch else ResumeAction.showProfile) from rfl]
    rw [hend_other u humem hu]
    simp
  · rintro u act (rfl | rfl)
    · by_cases ha : act = "skip"
      · simp [action_for, assign_actions, ha]
      · rcases hmem with rfl | rfl
        · simp [action_for, assign_actions, ha, hne]
        · simp [action_for, assign_actions, ha, hne, Ne.symm hne]
    · by_cases ha : act = "skip"
      · simp [action_for, assign_actions, ha]
      · rcases hmem with rfl | rfl
        · simp [action_for, assign_actions, ha, hne, Ne.symm hne]
        · simp [action_for, assign_actions, ha, hne, Ne.symm hne]
  · intro b
    rfl

theorem resume_action_assignment_witness :
    (action_for 10 10 20 "skip" 10 = "skip"
      ∧ action_for 20 10 20 "skip" 10 = "skip"
      ∧ ∀ u, continue_after_rating
          (some { dialog_id := 1, has_photos := false, partner := 20,
                  action := action_for u 10 20 "skip" 10, step := "chat" })
          = (none, .resumeSearch))
    ∧ (action_for 10 10 20 "end" 10 = "end"
      ∧ (∀ u, (u = 10 ∨ u = 20) → u ≠ 10 → action_for u 10 20 "end" 10 = "skip")
      ∧ continue_after_rating
          (some { dialog_id := 1, has_photos := false, partner := 20,
                  action := action_for 10 10 20 "end" 10, step := "chat" })
          = (none, .showProfile)
      ∧ (∀ u, (u = 10 ∨ u = 20) → u ≠ 10 →
          continue_after_rating
            (some { dialog_id := 1, has_photos := false, partner := 20,
                    action := action_for u 10 20 "end" 10, step := "chat" })
            = (none, .resumeSearch)))
    ∧ (∀ u act, (u = 10 ∨ u = 20) →
        action_for u 10 20 act 10 = action_for u 20 10 act 10)
    ∧ (∀ b, (continue_after_rating b).1 = none) :=
  resume_action_assignment 10 20 10 1 false 20 "chat" (by decide) (Or.inl rfl)

/-! ### Duplicate rating submissions (C5) -/

/-- C5: the first submission of a `(dialog, rater, ratee, kind)` rating is persisted
and recomputes the ratee's aggregates; a second submission of the same tuple is
rejected by the uniqueness constraint, surfaced as "already rated", and leaves both
the stored rows and the ratee's aggregates exactly as after the first write. -/
theorem duplicate_rating_rejected :
    ∀ (rs : List RatingRow) (ratee : RepUser) (r r' : RatingRow),
      ratingKey r' = ratingKey r →
      violatesUnique rs r = false →
      (submit_rating rs ratee r).2.2 = .saved
        ∧ r ∈ (submit_rating rs ratee r).1
        ∧ (submit_rating rs ratee r).2.1 = (on_rating_saved (rs ++ [r]) ratee).user
        ∧ (submit_rating (submit_rating rs ratee r).1 (submit_rating rs ratee r).2.1 r').2.2
            = .rejected alreadyRatedMessage
        ∧ (submit_rating (submit_rating rs ratee r).1 (submit_rating rs ratee r).2.1 r').2.1
            = (submit_rating rs ratee r).2.1
        ∧ (submit_rating (submit_rating rs ratee r).1 (submit_rating rs ratee r).2.1 r').1
            = (submit_rating rs ratee r).1 := by
  intro rs ratee r r' hkey hfresh
  have h1 : submit_rating rs ratee r
      = (rs ++ [r], (on_rating_saved (rs ++ [r]) ratee).user, .saved) := by
    simp [submit_rating, hfresh]
  have hdup : violatesUnique (rs ++ [r]) r' = true := by
    simp only [violatesUnique, List.any_eq_true]
    exact ⟨r, by simp, by simp [hkey]⟩
  have h2 : submit_rating (rs ++ [r]) (on_rating_saved (rs ++ [r]) ratee).user r'
      = (rs ++ [r], (on_rating_saved (rs ++ [r]) ratee).user,
         .rejected alreadyRatedMessage) := by
    simp [submit_rating, hdup]
  refine ⟨by rw [h1], by rw [h1]; simp, by rw [h1], ?_, ?_, ?_⟩ <;>
    rw [h1] <;> simp only [] <;> rw [h2]

/-- C5 witness: a concrete duplicate chat-rating pair. -/
def c5row : RatingRow :=
  { id := 1, dialog_id := 7, from_user_id := 1, to_user_id := 2, rating_type := .chat,
    value := 8, is_seasonal_valid := true, created_at := 100 }

def c5row' : RatingRow :=
  { id := 2, dialog_id := 7, from_user_id := 1, to_user_id := 2, rating_type := .chat,
    value := 3, is_seasonal_valid := true, created_at := 200 }

def c5user : RepUser :=
  { id := 2, season_rating_chat := 5, season_rating_appearance := 0,
    last_20_avg_chat := 0, last_20_avg_appearance := 0, calibration_counter := 0,
    is_under_review := false }

theorem duplicate_rating_rejected_witness :
    (submit_rating [] c5user c5row).2.2 = .saved
      ∧ c5row ∈ (submit_rating [] c5user c5row).1
      ∧ (submit_rating [] c5user c5row).2.1 = (on_rating_saved ([] ++ [c5row]) c5user).user
      ∧ (submit_rating (submit_rating [] c5user c5row).1
          (submit_rating [] c5user c5row).2.1 c5row').2.2
          = .rejected alreadyRatedMessage
      ∧ (submit_rating (submit_rating [] c5user c5row).1
          (submit_rating [] c5user c5row).2.1 c5row').2.1
          = (submit_rating [] c5user c5row).2.1
      ∧ (submit_rating (submit_rating [] c5user c5row).1
          (submit_rating [] c5user c5row).2.1 c5row').1
          = (submit_rating [] c5user c5row).1 :=
  duplicate_rating_rejected [] c5user c5row c5row' (by decide) (by decide)

/-! ### Sharp-drop review flag and operator alert (C8) -/

theorem sqlAvgD_nonneg (vals : List Nat) : 0 ≤ (sqlAvg vals).getD 0 := by
  unfold sqlAvg
  by_cases h : vals.isEmpty
  · simp [h]
  · rw [Bool.not_eq_true] at h
    simp only [h, Bool.false_eq_true, if_false, Option.getD_some]
    apply div_nonneg
    · apply List.sum_nonneg
      intro x hx
      simp only [List.mem_map] at hx
      obtain ⟨v, hv, hxe⟩ := hx
      rw [← hxe]
      exact Nat.cast_nonneg v
    · exact Nat.cast_nonneg _

theorem on_rating_saved_avg_chat (rs : List RatingRow) (u : RepUser) :
    (on_rating_saved rs u).avg_chat
      = (sqlAvg ((ratingsTo rs u.id .chat).map (·.value))).getD 0 := rfl

theorem on_rating_saved_prev_chat (rs : List RatingRow) (u : RepUser) :
    (on_rating_saved rs u).prev_chat = u.season_rating_chat := rfl

theorem on_rating_saved_under_review (rs : List RatingRow) (u : RepUser) :
    (on_rating_saved rs u).user.is_under_review
      = if u.season_rating_chat ≠ 0
            ∧ 3 ≤ u.season_rating_chat - (on_rating_saved rs u).avg_chat
        then true else u.is_under_review := rfl

/-- C8: when a newly recomputed chat season average sits at least 3 below its prior
value, the ratee is flagged under-review and one alert per configured operator is
emitted, each carrying the prior and new averages, the triggering value, the ratee and
the rater. -/
theorem chat_drop_flags_and_alerts :
    ∀ (rs : List RatingRow) (u : RepUser) (admins : List Nat) (toTg : Tg)
      (value dialogId rater : Nat),
      3 ≤ (on_rating_saved rs u).prev_chat - (on_rating_saved rs u).avg_chat →
      (on_rating_saved rs u).user.is_under_review = true
        ∧ rating_drop_alerts admins (on_rating_saved rs u).recalculated "chat"
            (on_rating_saved rs u).prev_chat (on_rating_saved rs u).avg_chat
            toTg value dialogId rater
          = admins.map (fun a =>
              (a, { to_tg := toTg, prev_avg_chat := (on_rating_saved rs u).prev_chat,
                    new_avg_chat := (on_rating_saved rs u).avg_chat,
                    incoming_value := value, dialog_id := dialogId,
                    rater_tg := rater })) := by
  intro rs u admins toTg value dialogId rater hdrop
  have havg : 0 ≤ (on_rating_saved rs u).avg_chat := by
    rw [on_rating_saved_avg_chat]
    exact sqlAvgD_nonneg _
  have hprev : (on_rating_saved rs u).prev_chat ≠ 0 := by
    intro h0
    rw [h0] at hdrop
    linarith
  constructor
  · rw [on_rating_saved_under_review, if_pos]
    refine ⟨?_, ?_⟩
    · rw [← on_rating_saved_prev_chat rs u]
      exact hprev
    · rw [← on_rating_saved_prev_chat rs u]
      exact hdrop
  · unfold rating_drop_alerts
    rw [if_pos]
    refine ⟨rfl, rfl, hprev, ?_⟩
    rw [abs_of_nonneg (by linarith)]
    exact hdrop

/-- C8 witness: one prior 9.0 average dropping to 4.5 on a low rating. -/
def c8rows : List RatingRow :=
  [{ id := 1, dialog_id := 1, from_user_id := 3, to_user_id := 2, rating_type := .chat,
     value := 9, is_seasonal_valid := true, created_at := 10 },
   { id := 2, dialog_id := 4, from_user_id := 1, to_user_id := 2, rating_type := .chat,
     value := 0, is_seasonal_valid := true, created_at := 20 }]

def c8user : RepUser :=
  { id := 2, season_rating_chat := 9, season_rating_appearance := 0,
    last_20_avg_chat := 9, last_20_avg_appearance := 0, calibration_counter := 1,
    is_under_review := false }

theorem chat_drop_flags_and_alerts_witness :
    (on_rating_saved c8rows c8user).user.is_under_review = true
      ∧ rating_drop_alerts [77] (on_rating_saved c8rows c8user).recalculated "chat"
          (on_rating_saved c8rows c8user).prev_chat (on_rating_saved c8rows c8user).avg_chat
          200 0 4 100
        = [77].map (fun a =>
            (a, { to_tg := 200, prev_avg_chat := (on_rating_saved c8rows c8user).prev_chat,
                  new_avg_chat := (on_rating_saved c8rows c8user).avg_chat,
                  incoming_value := 0, dialog_id := 4, rater_tg := 100 })) :=
  chat_drop_flags_and_alerts c8rows c8user [77] 200 0 4 100 (by
    norm_num [on_rating_saved, ratingsTo, sqlAvg, c8rows, c8user])

/-! ### Seasonal-validity anti-abuse decision (C4) -/

theorem meetsCount_eq_spec (dialogs : List DialogRow) (since : Int) (a b : Nat)
    (hab : a ≠ b) (hd : ∀ d ∈ dialogs, d.user1_id ≠ d.user2_id) :
    meetsCount dialogs since a b = specPairDialogCount dialogs since a b := by
  unfold meetsCount specPairDialogCount
  congr 1
  apply List.filter_congr
  intro d hdmem
  have hne := hd d hdmem
  rw [Bool.eq_iff_iff]
  simp only [Bool.and_eq_true, Bool.or_eq_true, beq_iff_eq, decide_eq_true_eq]
  omega

theorem mutualChat_eq_spec (rs : List RatingRow) (since : Int) (a b : Nat)
    (hab : a ≠ b) (hr : ∀ r ∈ rs, r.from_user_id ≠ r.to_user_id) :
    mutualChat rs since a b = specExchangedChat rs since a b := by
  unfold mutualChat specExchangedChat
  apply List.filter_congr
  intro r hrmem
  have hne := hr r hrmem
  rw [Bool.eq_iff_iff]
  simp only [Bool.and_eq_true, Bool.or_eq_true, beq_iff_eq, decide_eq_true_eq]
  constructor
  · rintro ⟨⟨⟨hw, hk⟩, hfrom⟩, hto⟩
    refine ⟨⟨hw, hk⟩, ?_⟩
    omega
  · rintro ⟨⟨hw, hk⟩, hdir⟩
    refine ⟨⟨⟨hw, hk⟩, ?_⟩, ?_⟩ <;> omega

theorem ratio_ge_iff (high total : Nat) (h : 0 < total) :
    ((4 : Rat) / 5 ≤ (high : Rat) / (total : Rat)) ↔ 4 * total ≤ 5 * high := by
  rw [div_le_div_iff₀ (by norm_num : (0 : Rat) < 5) (by exact_mod_cast h)]
  constructor
  · intro hx
    have hx' : 4 * total ≤ high * 5 := by exact_mod_cast hx
    omega
  · intro hx
    have hx' : 4 * total ≤ high * 5 := by omega
    exact_mod_cast hx'

/-- C4: `decide_seasonal_validity` marks the rating invalid exactly when the unordered
pair created more than 3 dialogs in the trailing 7-day window (reason
`pair_met_too_often`), or — that failing — the pair exchanged at least 10 chat ratings
of each other in the window of which at least 80 % are ≥ 9 (reason
`mutual_high_ratio`); in every other case it marks the rating valid.  (The
hypotheses state the `Dialog` invariant `user1 ≠ user2` and that no rating is
self-directed, both enforced by the creation paths.) -/
theorem seasonal_validity_characterization :
    ∀ (now : Int) (dialogs : List DialogRow) (rs : List RatingRow) (a b : Nat),
      a ≠ b →
      (∀ d ∈ dialogs, d.user1_id ≠ d.user2_id) →
      (∀ r ∈ rs, r.from_user_id ≠ r.to_user_id) →
      (decide_seasonal_validity now dialogs rs a b
          = { is_seasonal_valid := false, reason := some "pair_met_too_often" }
        ↔ 3 < specPairDialogCount dialogs (now - 7 * 86400) a b)
      ∧ (decide_seasonal_validity now dialogs rs a b
          = { is_seasonal_valid := false, reason := some "mutual_high_ratio" }
        ↔ (¬ 3 < specPairDialogCount dialogs (now - 7 * 86400) a b
            ∧ 10 ≤ (specExchangedChat rs (now - 7 * 86400) a b).length
            ∧ 4 * (specExchangedChat rs (now - 7 * 86400) a b).length
                ≤ 5 * ((specExchangedChat rs (now - 7 * 86400) a b).filter
                    (fun r => 9 ≤ r.value)).length))
      ∧ ((decide_seasonal_validity now dialogs rs a b).is_seasonal_valid = true
        ↔ (¬ 3 < specPairDialogCount dialogs (now - 7 * 86400) a b
            ∧ ¬(10 ≤ (specExchangedChat rs (now - 7 * 86400) a b).length
                ∧ 4 * (specExchangedChat rs (now - 7 * 86400) a b).length
                    ≤ 5 * ((specExchangedChat rs (now - 7 * 86400) a b).filter
                        (fun r => 9 ≤ r.value)).length))) := by
  intro now dialogs rs a b hab hd hr
  have hstr : ("pair_met_too_often" : String) ≠ "mutual_high_ratio" := by decide
  have hmm := meetsCount_eq_spec dialogs (now - 7 * 86400) a b hab hd
  have hmc := mutualChat_eq_spec rs (now - 7 * 86400) a b hab hr
  simp only [decide_seasonal_validity]
  rw [hmm, hmc]
  by_cases h1 : 3 < specPairDialogCount dialogs (now - 7 * 86400) a b
  · rw [if_pos h1]
    refine ⟨⟨fun _ => h1, fun _ => rfl⟩, ⟨?_, ?_⟩, ⟨?_, ?_⟩⟩
    · intro he
      have h2' := congrArg AntiAbuseDecision.reason he
      exact absurd (Option.some.inj h2') hstr
    · rintro ⟨hno, _⟩
      exact absurd h1 hno
    · intro he
      exact absurd he (by decide)
    · rintro ⟨hno, _⟩
      exact absurd h1 hno
  · rw [if_neg h1]
    by_cases h2 : 10 ≤ (specExchangedChat rs (now - 7 * 86400) a b).length
    · rw [if_pos h2]
      have hpos : 0 < (specExchangedChat rs (now - 7 * 86400) a b).length := by omega
      have hiff := ratio_ge_iff
        ((specExchangedChat rs (now - 7 * 86400) a b).filter (fun r => 9 ≤ r.value)).length
        (specExchangedChat rs (now - 7 * 86400) a b).length hpos
      by_cases h3 : (4 : Rat) / 5
          ≤ ((((specExchangedChat rs (now - 7 * 86400) a b).filter
                (fun r => 9 ≤ r.value)).length : Nat) : Rat)
            / (((specExchangedChat rs (now - 7 * 86400) a b).length : Nat) : Rat)
      · rw [if_pos h3]
        refine ⟨⟨?_, ?_⟩, ⟨fun _ => ⟨h1, h2, hiff.mp h3⟩, fun _ => rfl⟩, ⟨?_, ?_⟩⟩
        · intro he
          have h2' := congrArg AntiAbuseDecision.reason he
          exact absurd (Option.some.inj h2').symm hstr
        · intro hc
          exact absurd hc h1
        · intro he
          exact absurd he (by decide)
        · rintro ⟨_, hno⟩
          exact absurd ⟨h2, hiff.mp h3⟩ hno
      · rw [if_neg h3]
        refine ⟨⟨?_, ?_⟩, ⟨?_, ?_⟩, ⟨?_, ?_⟩⟩
        · intro he
          have h2' := congrArg AntiAbuseDecision.reason he
          exact Option.noConfusion h2'
        · intro hc
          exact absurd hc h1
        · intro he
          have h2' := congrArg AntiAbuseDecision.reason he
          exact Option.noConfusion h2'
        · rintro ⟨_, _, hineq⟩
          exact absurd (hiff.mpr hineq) h3
        · intro _
          exact ⟨h1, fun hc => h3 (hiff.mpr hc.2)⟩
        · intro _
          rfl
    · rw [if_neg h2]
      refine ⟨⟨?_, ?_⟩, ⟨?_, ?_⟩, ⟨?_, ?_⟩⟩
      · intro he
        have h2' := congrArg AntiAbuseDecision.reason he
        exact Option.noConfusion h2'
      · intro hc
        exact absurd hc h1
      · intro he
        have h2' := congrArg AntiAbuseDecision.reason he
        exact Option.noConfusion h2'
      · rintro ⟨_, hh2, _⟩
        exact absurd hh2 h2
      · intro _
        exact ⟨h1, fun hc => h2 hc.1⟩
      · intro _
        rfl

/-- C4 witness: an empty window is valid; the theorem instantiated at a concrete
store. -/
def c4dialogs : List DialogRow :=
  [{ id := 1, user1_id := 1, user2_id := 2, status := .finished, has_photos := false,
     created_at := 1000000, finished_at := some 1000100 }]

def c4ratings : List RatingRow :=
  [{ id := 1, dialog_id := 1, from_user_id := 1, to_user_id := 2, rating_type := .chat,
     value := 9, is_seasonal_valid := true, created_at := 1000050 }]

theorem seasonal_validity_characterization_witness :
    (decide_seasonal_validity 1000200 c4dialogs c4ratings 1 2
        = { is_seasonal_valid := false, reason := some "pair_met_too_often" }
      ↔ 3 < specPairDialogCount c4dialogs (1000200 - 7 * 86400) 1 2)
    ∧ (decide_seasonal_validity 1000200 c4dialogs c4ratings 1 2
        = { is_seasonal_valid := false, reason := some "mutual_high_ratio" }
      ↔ (¬ 3 < specPairDialogCount c4dialogs (1000200 - 7 * 86400) 1 2
          ∧ 10 ≤ (specExchangedChat c4ratings (1000200 - 7 * 86400) 1 2).length
          ∧ 4 * (specExchangedChat c4ratings (1000200 - 7 * 86400) 1 2).length
              ≤ 5 * ((specExchangedChat c4ratings (1000200 - 7 * 86400) 1 2).filter
                  (fun r => 9 ≤ r.value)).length))
    ∧ ((decide_seasonal_validity 1000200 c4dialogs c4ratings 1 2).is_seasonal_valid = true
      ↔ (¬ 3 < specPairDialogCount c4dialogs (1000200 - 7 * 86400) 1 2
          ∧ ¬(10 ≤ (specExchangedChat c4ratings (1000200 - 7 * 86400) 1 2).length
              ∧ 4 * (specExchangedChat c4ratings (1000200 - 7 * 86400) 1 2).length
                  ≤ 5 * ((specExchangedChat c4ratings (1000200 - 7 * 86400) 1 2).filter
                      (fun r => 9 ≤ r.value)).length))) :=
  seasonal_validity_characterization 1000200 c4dialogs c4ratings 1 2 (by decide)
    (by decide) (by decide)

/-! ### Aggregate recomputation (C3) -/

theorem insertDesc_perm (r : RatingRow) (l : List RatingRow) :
    (insertDesc r l).Perm (r :: l) := by
  induction l with
  | nil => exact List.Perm.refl _
  | cons x xs ih =>
    unfold insertDesc
    by_cases h : x.created_at ≤ r.created_at
    · rw [if_pos h]
    · rw [if_neg h]
      exact (List.Perm.cons x ih).trans (List.Perm.swap r x xs)

theorem sortByCreatedDesc_perm (l : List RatingRow) : (sortByCreatedDesc l).Perm l := by
  induction l with
  | nil => exact List.Perm.refl _
  | cons x xs ih =>
    exact (insertDesc_perm x _).trans (List.Perm.cons x ih)

theorem insertDesc_sorted (r : RatingRow) (l : List RatingRow)
    (hl : l.Sorted (fun a b => b.created_at ≤ a.created_at)) :
    (insertDesc r l).Sorted (fun a b => b.created_at ≤ a.created_at) := by
  induction l with
  | nil => simp [insertDesc]
  | cons x xs ih =>
    rw [List.sorted_cons] at hl
    obtain ⟨hx, hxs⟩ := hl
    unfold insertDesc
    by_cases h : x.created_at ≤ r.created_at
    · rw [if_pos h]
      rw [List.sorted_cons]
      refine ⟨?_, ?_⟩
      · intro b hb
        rcases List.mem_cons.mp hb with rfl | hb'
        · exact h
        · exact le_trans (hx b hb') h
      · rw [List.sorted_cons]
        exact ⟨hx, hxs⟩
    · rw [if_neg h]
      rw [List.sorted_cons]
      refine ⟨?_, ih hxs⟩
      intro b hb
      have hmem := (insertDesc_perm r xs).mem_iff.mp hb
      rcases List.mem_cons.mp hmem with rfl | hb'
      · omega
      · exact hx b hb'

theorem sortByCreatedDesc_sorted (l : List RatingRow) :
    (sortByCreatedDesc l).Sorted (fun a b => b.created_at ≤ a.created_at) := by
  induction l with
  | nil => simp [sortByCreatedDesc]
  | cons x xs ih => exact insertDesc_sorted x _ ih

theorem sqlAvgD_eq_specMean (vals : List Nat) (h : vals ≠ []) :
    (sqlAvg vals).getD 0 = specMean vals := by
  unfold sqlAvg specMean
  have he : vals.isEmpty = false := by
    cases vals with
    | nil => exact absurd rfl h
    | cons a as => rfl
  rw [he]
  rfl

/-- Updating only the seasonal-validity flag commutes with the received-ratings
filter. -/
theorem ratingsTo_map_flag (rs : List RatingRow) (u : Nat) (k : RatingType)
    (f : RatingRow → Bool) :
    ratingsTo (rs.map (fun r => { r with is_seasonal_valid := f r })) u k
      = (ratingsTo rs u k).map (fun r => { r with is_seasonal_valid := f r }) := by
  unfold ratingsTo
  induction rs with
  | nil => rfl
  | cons r rest ih =>
    simp only [List.map_cons, List.filter_cons]
    cases h : (r.to_user_id == u && r.rating_type == k) with
    | true => simp [h, ih]
    | false => simp [h, ih]

theorem insertDesc_map_flag (f : RatingRow → Bool) (r : RatingRow) (l : List RatingRow) :
    insertDesc { r with is_seasonal_valid := f r }
        (l.map (fun x => { x with is_seasonal_valid := f x }))
      = (insertDesc r l).map (fun x => { x with is_seasonal_valid := f x }) := by
  induction l with
  | nil => rfl
  | cons x xs ih =>
    by_cases h : x.created_at ≤ r.created_at
    · simp [insertDesc, h, ih]
    · simp [insertDesc, h, ih]

theorem sortByCreatedDesc_map_flag (f : RatingRow → Bool) (l : List RatingRow) :
    sortByCreatedDesc (l.map (fun x => { x with is_seasonal_valid := f x }))
      = (sortByCreatedDesc l).map (fun x => { x with is_seasonal_valid := f x }) := by
  induction l with
  | nil => rfl
  | cons x xs ih =>
    unfold sortByCreatedDesc
    rw [List.map_cons] at *
    show insertDesc { x with is_seasonal_valid := f x }
        (sortByCreatedDesc (xs.map (fun y => { y with is_seasonal_valid := f y })))
      = (insertDesc x (sortByCreatedDesc xs)).map (fun y => { y with is_seasonal_valid := f y })
    rw [ih, insertDesc_map_flag]

/-- C3: after a recomputation, the season average per kind is the mean of all ratings
of that kind ever received, the rolling average per kind is the mean of the 20 most
recent ratings of that kind (the sorted list is a permutation of the received ratings,
descending in recency, so that everything dropped is no newer than everything kept),
the calibration counter is the number of distinct dialogs carrying a received chat
rating — and all aggregations are invariant under arbitrary rewrites of the
per-rating seasonal-validity flag. -/
theorem recompute_matches_spec :
    ∀ (rs : List RatingRow) (u : RepUser),
      (ratingsTo rs u.id .chat ≠ [] →
        (on_rating_saved rs u).user.season_rating_chat
          = specMean ((ratingsTo rs u.id .chat).map (·.value)))
      ∧ (ratingsTo rs u.id .appearance ≠ [] →
        (on_rating_saved rs u).user.season_rating_appearance
          = specMean ((ratingsTo rs u.id .appearance).map (·.value)))
      ∧ (on_rating_saved rs u).user.calibration_counter
          = ((ratingsTo rs u.id .chat).map (·.dialog_id)).toFinset.card
      ∧ (sortByCreatedDesc (ratingsTo rs u.id .chat)).Perm (ratingsTo rs u.id .chat)
      ∧ (∀ x ∈ (sortByCreatedDesc (ratingsTo rs u.id .chat)).take 20,
          ∀ y ∈ (sortByCreatedDesc (ratingsTo rs u.id .chat)).drop 20,
            y.created_at ≤ x.created_at)
      ∧ (ratingsTo rs u.id .chat ≠ [] →
          (on_rating_saved rs u).user.last_20_avg_chat
            = specMean (((sortByCreatedDesc (ratingsTo rs u.id .chat)).take 20).map
                (·.value)))
      ∧ (sortByCreatedDesc (ratingsTo rs u.id .appearance)).Perm
          (ratingsTo rs u.id .appearance)
      ∧ (∀ x ∈ (sortByCreatedDesc (ratingsTo rs u.id .appearance)).take 20,
          ∀ y ∈ (sortByCreatedDesc (ratingsTo rs u.id .appearance)).drop 20,
            y.created_at ≤ x.created_at)
      ∧ (ratingsTo rs u.id .appearance ≠ [] →
          (on_rating_saved rs u).user.last_20_avg_appearance
            = specMean (((sortByCreatedDesc (ratingsTo rs u.id .appearance)).take 20).map
                (·.value)))
      ∧ (∀ f : RatingRow → Bool,
          on_rating_saved (rs.map (fun r => { r with is_seasonal_valid := f r })) u
            = on_rating_saved rs u) := by
  intro rs u
  have htake : ∀ (l : List RatingRow), l ≠ [] → (sortByCreatedDesc l).take 20 ≠ [] := by
    intro l hl
    have hlen : (sortByCreatedDesc l).length = l.length := (sortByCreatedDesc_perm l).length_eq
    have hpos : 0 < (sortByCreatedDesc l).length := by
      rw [hlen]
      exact List.length_pos.mpr hl
    intro htk
    have := congrArg List.length htk
    rw [List.length_take] at this
    simp only [List.length_nil] at this
    omega
  have hmapval : ∀ (X : List RatingRow) (f : RatingRow → Bool),
      (X.map (fun r => { r with is_seasonal_valid := f r })).map (fun r => r.value)
        = X.map (fun r => r.value) := by
    intro X f
    rw [List.map_map]
    rfl
  refine ⟨?_, ?_, ?_, sortByCreatedDesc_perm _, ?_, ?_, sortByCreatedDesc_perm _, ?_, ?_, ?_⟩
  · intro h
    exact sqlAvgD_eq_specMean _ (by simpa using h)
  · intro h
    exact sqlAvgD_eq_specMean _ (by simpa using h)
  · show ((ratingsTo rs u.id .chat).map (·.dialog_id)).dedup.length = _
    rw [List.card_toFinset]
  · intro x hx y hy
    exact (sortByCreatedDesc_sorted _).rel_of_mem_take_of_mem_drop hx hy
  · intro h
    exact sqlAvgD_eq_specMean _ (by simpa using htake _ h)
  · intro x hx y hy
    exact (sortByCreatedDesc_sorted _).rel_of_mem_take_of_mem_drop hx hy
  · intro h
    exact sqlAvgD_eq_specMean _ (by simpa using htake _ h)
  · intro f
    simp only [on_rating_saved]
    rw [ratingsTo_map_flag, ratingsTo_map_flag, sortByCreatedDesc_map_flag,
        sortByCreatedDesc_map_flag, ← List.map_take, ← List.map_take,
        hmapval, hmapval, hmapval, hmapval]
    rw [List.map_map]
    rfl

/-- C3 witness: one chat and one appearance rating. -/
def c3rows : List RatingRow :=
  [{ id := 1, dialog_id := 1, from_user_id := 3, to_user_id := 2, rating_type := .chat,
     value := 7, is_seasonal_valid := false, created_at := 10 },
   { id := 2, dialog_id := 1, from_user_id := 3, to_user_id := 2,
     rating_type := .appearance, value := 6, is_seasonal_valid := true, created_at := 11 }]

def c3user : RepUser :=
  { id := 2, season_rating_chat := 5, season_rating_appearance := 0,
    last_20_avg_chat := 0, last_20_avg_appearance := 0, calibration_counter := 0,
    is_under_review := false }

theorem recompute_matches_spec_witness :
    (on_rating_saved c3rows c3user).user.season_rating_chat
        = specMean ((ratingsTo c3rows c3user.id .chat).map (·.value))
      ∧ (on_rating_saved c3rows c3user).user.season_rating_appearance
        = specMean ((ratingsTo c3rows c3user.id .appearance).map (·.value))
      ∧ (on_rating_saved c3rows c3user).user.calibration_counter
        = ((ratingsTo c3rows c3user.id .chat).map (·.dialog_id)).toFinset.card
      ∧ (on_rating_saved c3rows c3user).user.last_20_avg_chat
        = specMean (((sortByCreatedDesc (ratingsTo c3rows c3user.id .chat)).take 20).map
            (·.value))
      ∧ (∀ f : RatingRow → Bool,
          on_rating_saved (c3rows.map (fun r => { r with is_seasonal_valid := f r })) c3user
            = on_rating_saved c3rows c3user) := by
  have h := recompute_matches_spec c3rows c3user
  exact ⟨h.1 (by decide), h.2.1 (by decide), h.2.2.1, h.2.2.2.2.2.1 (by decide),
         h.2.2.2.2.2.2.2.2.2⟩

/-! ### The reservation script never double-books (C2) -/

theorem getLast?_decomp {l : List Tg} {c : Tg} (h : l.getLast? = some c) :
    l = l.dropLast ++ [c] := by
  have hne : l ≠ [] := by
    rintro rfl
    simp at h
  have h2 := List.dropLast_append_getLast hne
  have h3 : l.getLast hne = c := by
    have h4 := List.getLast?_eq_getLast l hne
    rw [h4] at h
    exact Option.some.inj h
  rw [← h3]
  exact h2.symm

theorem count_cons_dropLast {l : List Tg} {c0 : Tg} (h : l.getLast? = some c0) (x : Tg) :
    (c0 :: l.dropLast).count x = l.count x := by
  conv_rhs => rw [getLast?_decomp h]
  by_cases hx : x = c0
  · subst hx
    simp [List.count_cons, List.count_append]
  · simp [List.count_cons, List.count_append, hx, Ne.symm hx]

theorem count_dropLast_self {l : List Tg} {c0 : Tg} (h : l.getLast? = some c0) :
    l.dropLast.count c0 + 1 = l.count c0 := by
  conv_rhs => rw [getLast?_decomp h]
  simp [List.count_append]

theorem count_dropLast_other {l : List Tg} {c0 : Tg} (h : l.getLast? = some c0)
    (x : Tg) (hx : x ≠ c0) : l.dropLast.count x = l.count x := by
  conv_rhs => rw [getLast?_decomp h]
  simp [List.count_append, hx, Ne.symm hx]

/-- Pushing the popped tail element back on the head preserves every queue count. -/
theorem requeue_count (s : RedisState) (q0 : String) (c0 : Tg)
    (hl : (s.queue q0).getLast? = some c0) (n : String) (x : Tg) :
    ((({ s with queue := fun m => if m = q0 then (s.queue q0).dropLast else s.queue m }
        : RedisState).lpush q0 c0).queue n).count x = (s.queue n).count x := by
  unfold RedisState.lpush
  by_cases hn : n = q0
  · subst hn
    simp only [if_pos rfl]
    exact count_cons_dropLast hl x
  · simp only [if_neg hn]

/-- The per-queue loop of the reservation script: the fast-store pointers are
untouched; an `OK c q` answer implies the candidate differed from the searcher, held
no active-dialog pointer, was unlocked before and is locked after, no other lock
changed, and exactly one copy of `c` left queue `q` while every other queue count is
preserved; a `NONE` answer changes no lock and no count. -/
theorem matchReserveGo_spec (me : Tg) :
    ∀ (qs : List String) (s : RedisState) (r : ReserveResult) (s' : RedisState),
      matchReserveGo me qs s = (r, s') →
      s'.activePtr = s.activePtr
      ∧ (∀ c q, r = .reserveOk c q →
          c ≠ me ∧ s.activePtr c = none ∧ s.lock c = false ∧ s'.lock c = true
            ∧ (∀ t, t ≠ c → s'.lock t = s.lock t)
            ∧ ((s'.queue q).count c + 1 = (s.queue q).count c)
            ∧ (∀ n x, ¬(n = q ∧ x = c) → (s'.queue n).count x = (s.queue n).count x))
      ∧ (r = .reserveNone →
          s'.lock = s.lock ∧ ∀ n x, (s'.queue n).count x = (s.queue n).count x) := by
  intro qs
  induction qs with
  | nil =>
    intro s r s' h
    simp only [matchReserveGo] at h
    rw [Prod.mk.injEq] at h
    obtain ⟨hr, hs⟩ := h
    subst hs
    refine ⟨rfl, ?_, ?_⟩
    · intro c q hok
      rw [← hr] at hok
      exact absurd hok (by simp)
    · intro _
      exact ⟨rfl, fun n x => rfl⟩
  | cons q0 rest ih =>
    intro s r s' h
    simp only [matchReserveGo] at h
    cases hl : (s.queue q0).getLast? with
    | none =>
      rw [hl] at h
      exact ih s r s' h
    | some c0 =>
      rw [hl] at h
      simp only at h
      by_cases h1 : c0 = me
      · rw [if_pos h1] at h
        obtain ⟨hptr, hok, hnone⟩ := ih _ r s' h
        subst h1
        refine ⟨hptr, ?_, ?_⟩
        · intro c q hk
          obtain ⟨hc1, hc2, hc3, hc4, hc5, hc6, hc7⟩ := hok c q hk
          refine ⟨hc1, hc2, hc3, hc4, hc5, ?_, ?_⟩
          · rw [hc6]
            exact requeue_count s q0 c0 hl q c
          · intro n x hnx
            rw [hc7 n x hnx]
            exact requeue_count s q0 c0 hl n x
        · intro hn
          obtain ⟨hn1, hn2⟩ := hnone hn
          refine ⟨hn1, ?_⟩
          intro n x
          rw [hn2 n x]
          exact requeue_count s q0 c0 hl n x
      · rw [if_neg h1] at h
        by_cases h2 : (s.activePtr c0).isSome = true
        · rw [if_pos h2] at h
          obtain ⟨hptr, hok, hnone⟩ := ih _ r s' h
          refine ⟨hptr, ?_, ?_⟩
          · intro c q hk
            obtain ⟨hc1, hc2, hc3, hc4, hc5, hc6, hc7⟩ := hok c q hk
            refine ⟨hc1, hc2, hc3, hc4, hc5, ?_, ?_⟩
            · rw [hc6]
              exact requeue_count s q0 c0 hl q c
            · intro n x hnx
              rw [hc7 n x hnx]
              exact requeue_count s q0 c0 hl n x
          · intro hn
            obtain ⟨hn1, hn2⟩ := hnone hn
            refine ⟨hn1, ?_⟩
            intro n x
            rw [hn2 n x]
            exact requeue_count s q0 c0 hl n x
        · rw [if_neg h2] at h
          by_cases h3 : s.lock c0 = true
          · rw [if_pos h3] at h
            obtain ⟨hptr, hok, hnone⟩ := ih _ r s' h
            refine ⟨hptr, ?_, ?_⟩
            · intro c q hk
              obtain ⟨hc1, hc2, hc3, hc4, hc5, hc6, hc7⟩ := hok c q hk
              refine ⟨hc1, hc2, hc3, hc4, hc5, ?_, ?_⟩
              · rw [hc6]
                exact requeue_count s q0 c0 hl q c
              · intro n x hnx
                rw [hc7 n x hnx]
                exact requeue_count s q0 c0 hl n x
            · intro hn
              obtain ⟨hn1, hn2⟩ := hnone hn
              refine ⟨hn1, ?_⟩
              intro n x
              rw [hn2 n x]
              exact requeue_count s q0 c0 hl n x
          · rw [if_neg h3] at h
            rw [Prod.mk.injEq] at h
            obtain ⟨hr, hs⟩ := h
            subst hs
            refine ⟨rfl, ?_, ?_⟩
            · intro c q hk
              rw [← hr] at hk
              have hinj := ReserveResult.reserveOk.inj hk
              obtain ⟨rfl, rfl⟩ := hinj
              refine ⟨h1, ?_, ?_, ?_, ?_, ?_, ?_⟩
              · cases ho : s.activePtr c0 with
                | none => rfl
                | some v =>
                  exact absurd (show (s.activePtr c0).isSome = true by rw [ho]; rfl) h2
              · rw [Bool.not_eq_true] at h3
                exact h3
              · show (if c0 = c0 then true else _) = true
                rw [if_pos rfl]
              · intro t ht
                show (if t = c0 then true else s.lock t) = s.lock t
                rw [if_neg ht]
              · show (if q0 = q0 then (s.queue q0).dropLast else s.queue q0).count c0 + 1
                  = (s.queue q0).count c0
                rw [if_pos rfl]
                exact count_dropLast_self hl
              · intro n x hnx
                show ((if n = q0 then (s.queue q0).dropLast else s.queue n).count x)
                  = (s.queue n).count x
                by_cases hn : n = q0
                · subst hn
                  rw [if_pos rfl]
                  have hx : x ≠ c0 := by
                    intro hx
                    exact hnx ⟨rfl, hx⟩
                  exact count_dropLast_other hl x hx
                · rw [if_neg hn]
            · intro hn
              rw [← hr] at hn
              exact absurd hn (by simp)

/-- The queue loop never answers `ACTIVE`; only the wrapper's initial check does. -/
theorem matchReserveGo_ne_active (me : Tg) :
    ∀ (qs : List String) (s : RedisState),
      (matchReserveGo me qs s).1 ≠ ReserveResult.reserveActive := by
  intro qs
  induction qs with
  | nil =>
    intro s
    simp [matchReserveGo]
  | cons q0 rest ih =>
    intro s
    simp only [matchReserveGo]
    cases hl : (s.queue q0).getLast? with
    | none => exact ih s
    | some c0 =>
      simp only
      by_cases h1 : c0 = me
      · rw [if_pos h1]
        exact ih _
      · rw [if_neg h1]
        by_cases h2 : (s.activePtr c0).isSome = true
        · rw [if_pos h2]
          exact ih _
        · rw [if_neg h2]
          by_cases h3 : s.lock c0 = true
          · rw [if_pos h3]
            exact ih _
          · rw [if_neg h3]
            simp

/-- As `matchReserveGo_spec`, through the wrapper that first consults the searcher's
own pointer (in which case the store is untouched and the answer is `ACTIVE`). -/
theorem match_reserve_spec (me : Tg) (qs : List String) (s : RedisState)
    (r : ReserveResult) (s' : RedisState) (h : match_reserve me qs s = (r, s')) :
    s'.activePtr = s.activePtr
    ∧ (∀ c q, r = .reserveOk c q →
        c ≠ me ∧ s.activePtr c = none ∧ s.lock c = false ∧ s'.lock c = true
          ∧ (∀ t, t ≠ c → s'.lock t = s.lock t)
          ∧ ((s'.queue q).count c + 1 = (s.queue q).count c)
          ∧ (∀ n x, ¬(n = q ∧ x = c) → (s'.queue n).count x = (s.queue n).count x))
    ∧ ((r = .reserveNone ∨ r = .reserveActive) →
        s'.lock = s.lock ∧ ∀ n x, (s'.queue n).count x = (s.queue n).count x) := by
  unfold match_reserve at h
  by_cases ha : (s.activePtr me).isSome = true
  · rw [if_pos ha] at h
    rw [Prod.mk.injEq] at h
    obtain ⟨hr, hs⟩ := h
    subst hs
    refine ⟨rfl, ?_, ?_⟩
    · intro c q hk
      rw [← hr] at hk
      exact absurd hk (by simp)
    · intro _
      exact ⟨rfl, fun n x => rfl⟩
  · rw [if_neg ha] at h
    obtain ⟨hptr, hok, hnone⟩ := matchReserveGo_spec me qs s r s' h
    refine ⟨hptr, hok, ?_⟩
    rintro (hn | hn)
    · exact hnone hn
    · exfalso
      apply matchReserveGo_ne_active me qs s
      rw [h, hn]

/-- C2: no user already in a dialog is ever matched.  (a) A searcher owning an
`active_dialogs` row gets `None` back from `try_match` and the durable store is
untouched.  (b) The reservation script answers `OK c q` only when `c` differs from the
searcher, holds no cached active-dialog pointer, and was unlocked — and it then holds
`c`'s freshly acquired lock, changes no other lock, and has removed exactly one copy
of `c` from `q`, every other queue count being preserved (each popped candidate that
failed a check was pushed back).  (c) A `NONE`/`ACTIVE` answer changes no lock and no
queue count. -/
theorem no_user_in_dialog_is_matched :
    (∀ (db : DbState) (s0 : RedisState) (user : DbUser) (premium : Bool) (fuel : Nat),
      (db.getActiveDialog user.id).isSome = true →
      (try_match db s0 user premium fuel).result = .ok none
        ∧ (try_match db s0 user premium fuel).db = db)
    ∧ (∀ (me : Tg) (qs : List String) (s : RedisState) (c : Tg) (q : String)
        (s' : RedisState),
        match_reserve me qs s = (.reserveOk c q, s') →
        c ≠ me ∧ s.activePtr c = none ∧ s.lock c = false ∧ s'.lock c = true
          ∧ (∀ t, t ≠ c → s'.lock t = s.lock t)
          ∧ ((s'.queue q).count c + 1 = (s.queue q).count c)
          ∧ (∀ n x, ¬(n = q ∧ x = c) → (s'.queue n).count x = (s.queue n).count x))
    ∧ (∀ (me : Tg) (qs : List String) (s : RedisState) (r : ReserveResult)
        (s' : RedisState),
        match_reserve me qs s = (r, s') → (r = .reserveNone ∨ r = .reserveActive) →
        s'.lock = s.lock ∧ ∀ n x, (s'.queue n).count x = (s.queue n).count x) := by
  refine ⟨?_, ?_, ?_⟩
  · intro db s0 user premium fuel h
    by_cases hl : s0.lock user.telegram_id = true
    · simp only [try_match, hl, if_true]
      exact ⟨trivial, trivial⟩
    · rw [Bool.not_eq_true] at hl
      have hb : tryMatchBody
          { userId := user.id, userTg := user.telegram_id,
            lastPartnerTg := s0.lastPartner user.telegram_id, premium := premium }
          db (s0.setLock user.telegram_id) user.city fuel
          = (.ok none, s0.setLock user.telegram_id, none, db) := by
        unfold tryMatchBody
        rw [if_pos h]
      simp only [try_match, hl, Bool.false_eq_true, if_false, hb]
      exact ⟨trivial, trivial⟩
  · intro me qs s c q s' h
    exact (match_reserve_spec me qs s _ s' h).2.1 c q rfl
  · intro me qs s r s' h hr
    exact (match_reserve_spec me qs s r s' h).2.2 hr

/-- C2 witness store: the searcher owns an `active_dialogs` row. -/
def c2db : DbState :=
  { users := [searcherS], dialogs := [],
    active_dialogs := [{ user_id := 1, dialog_id := 5 }] }

theorem no_user_in_dialog_is_matched_witness :
    ((try_match c2db (redisWithGlobalQueue []) searcherS false 1).result = .ok none
      ∧ (try_match c2db (redisWithGlobalQueue []) searcherS false 1).db = c2db)
    ∧ ((200 : Tg) ≠ 100
      ∧ (redisWithGlobalQueue [200]).activePtr 200 = none
      ∧ (redisWithGlobalQueue [200]).lock 200 = false
      ∧ (match_reserve 100 [queue_global] (redisWithGlobalQueue [200])).2.lock 200 = true
      ∧ ((match_reserve 100 [queue_global] (redisWithGlobalQueue [200])).2.queue
            queue_global).count 200 + 1
          = ((redisWithGlobalQueue [200]).queue queue_global).count 200) := by
  have h1 : (match_reserve 100 [queue_global] (redisWithGlobalQueue [200])).1
      = .reserveOk 200 queue_global := by decide
  have hEq : match_reserve 100 [queue_global] (redisWithGlobalQueue [200])
      = (.reserveOk 200 queue_global,
         (match_reserve 100 [queue_global] (redisWithGlobalQueue [200])).2) := by
    rw [← h1]
  have h2 := no_user_in_dialog_is_matched.2.1 100 [queue_global]
      (redisWithGlobalQueue [200]) 200 queue_global
      (match_reserve 100 [queue_global] (redisWithGlobalQueue [200])).2 hEq
  exact ⟨no_user_in_dialog_is_matched.1 c2db (redisWithGlobalQueue []) searcherS false 1
           (by decide),
         h2.1, h2.2.1, h2.2.2.1, h2.2.2.2.1, h2.2.2.2.2.2.1⟩

/-! ### Handling of candidates that fail durable validation (C6, amended) -/

/-- C6 amended: every reserved candidate that fails validation has its short-TTL lock
released and the reservation loop continues without retaining it, but only the
active-dialog and last-partner failures push the candidate back onto its source
queue — a candidate that is unknown to the durable store or banned is dropped (lock
released, not requeued).  In particular a candidate equal to the searcher's cooldown
last-partner entry is requeued, unlocked and never retained, so the pair cannot be
rematched while the entry lives. -/
theorem candidate_validation_failure_handling :
    ∀ (ctx : MatchCtx) (db : DbState) (st : LoopState) (cand : Tg) (q : String),
      (ctx.lastPartnerTg = some cand →
        processCandidate ctx db st cand q
          = .cont { st with redis := (st.redis.lpush q cand).delLock cand,
                            partnerLockKey := none })
      ∧ ((db.userByTg cand = none
            ∨ ∃ u, db.userByTg cand = some u ∧ u.is_banned = true) →
          ctx.lastPartnerTg ≠ some cand →
          processCandidate ctx db st cand q
            = .cont { st with redis := st.redis.delLock cand, partnerLockKey := none })
      ∧ (∀ u, db.userByTg cand = some u → u.is_banned = false →
          (db.getActiveDialog u.id).isSome = true →
          ctx.lastPartnerTg ≠ some cand →
          processCandidate ctx db st cand q
            = .cont { st with redis := (st.redis.lpush q cand).delLock cand,
                              partnerLockKey := none }) := by
  intro ctx db st cand q
  refine ⟨?_, ?_, ?_⟩
  · intro h
    simp only [processCandidate, h, if_pos]
  · rintro (hn | ⟨u, hu, hb⟩) hlp
    · simp only [processCandidate, if_neg hlp, hn]
    · simp only [processCandidate, if_neg hlp, hu, hb, if_true]
  · intro u hu hb had hlp
    simp only [processCandidate, if_neg hlp, hu, hb, Bool.false_eq_true, if_false,
               had, if_true]

/-- C6 amended witness: a banned candidate is dropped with its lock released. -/
def c6ctx : MatchCtx :=
  { userId := 1, userTg := 100, lastPartnerTg := none, premium := false }

def c6st : LoopState :=
  { redis := redisWithGlobalQueue [], partnerLockKey := some 200, bestId := none,
    bestTg := none, bestRating := -1 }

theorem candidate_validation_failure_handling_witness :
    processCandidate c6ctx dbBannedCandidate c6st 200 queue_global
      = .cont { c6st with redis := c6st.redis.delLock 200, partnerLockKey := none } :=
  (candidate_validation_failure_handling c6ctx dbBannedCandidate c6st 200
      queue_global).2.1
    (Or.inr ⟨{ id := 2, telegram_id := 200, city := none, is_banned := true,
               season_rating_chat := 5 }, by decide, rfl⟩)
    (by decide)

/-! ### Lock release on exit (C10, amended) -/

/-- C10 amended: whenever `try_match` acquired the searcher's exclusive lock, the lock
is deleted on every exit path — normal return or exception — and the candidate lock
still tracked by `partner_lock_key` at exit is deleted too.  (The premium flow's
retained best candidate can hold a lock no longer tracked by `partner_lock_key`; that
lock is not covered and may be left to TTL expiry, see the counterexample.) -/
theorem try_match_releases_searcher_and_tracked_lock :
    ∀ (db : DbState) (s0 : RedisState) (user : DbUser) (premium : Bool) (fuel : Nat),
      s0.lock user.telegram_id = false →
      (try_match db s0 user premium fuel).redis.lock user.telegram_id = false
      ∧ (∀ c,
          (tryMatchBody
              { userId := user.id, userTg := user.telegram_id,
                lastPartnerTg := s0.lastPartner user.telegram_id, premium := premium }
              db (s0.setLock user.telegram_id) user.city fuel).2.2.1 = some c →
          (try_match db s0 user premium fuel).redis.lock c = false) := by
  intro db s0 user premium fuel h
  simp only [try_match, h, Bool.false_eq_true, if_false]
  cases hp : (tryMatchBody
      { userId := user.id, userTg := user.telegram_id,
        lastPartnerTg := s0.lastPartner user.telegram_id, premium := premium }
      db (s0.setLock user.telegram_id) user.city fuel).2.2.1 with
  | none =>
    simp only [hp]
    refine ⟨?_, ?_⟩
    · show (if user.telegram_id = user.telegram_id then false else _) = false
      rw [if_pos rfl]
    · intro c hc
      exact absurd hc (by simp)
  | some c0 =>
    simp only [hp]
    refine ⟨?_, ?_⟩
    · show (if user.telegram_id = c0 then false
          else if user.telegram_id = user.telegram_id then false else _) = false
      by_cases hc : user.telegram_id = c0
      · rw [if_pos hc]
      · rw [if_neg hc, if_pos rfl]
    · intro c hc
      have hcc : c = c0 := (Option.some.inj hc).symm
      subst hcc
      show (if c = c then false else _) = false
      rw [if_pos rfl]

theorem try_match_releases_searcher_and_tracked_lock_witness :
    (try_match dbOneCandidate (redisWithGlobalQueue [200]) searcherS false 50).redis.lock
        100 = false
    ∧ (try_match dbOneCandidate (redisWithGlobalQueue [200]) searcherS false
        50).redis.lock 200 = false := by
  have h := try_match_releases_searcher_and_tracked_lock dbOneCandidate
      (redisWithGlobalQueue [200]) searcherS false 50 (by decide)
  exact ⟨h.1, h.2 200 (by decide)⟩

end Nameless









